import Mathlib

/-!
Verification of `packages/app-check/src/providers.ts`: the App Check
attestation providers (`ReCaptchaV3Provider` with its throttle/backoff
state machine, and `CustomProvider` with its token-freshness
normalization), shallowly embedded in Lean.

Times are absolute timestamps in milliseconds since epoch, modelled as
`Int`.  The asynchronous external collaborators (the reCAPTCHA
attestation producer and the token exchange) are modelled by passing
their outcome for the current call as an explicit argument; `Date.now()`
is modelled by an explicit `now` argument.
-/

namespace AppCheck

/-- The JS numbers this module manipulates: either `NaN` (the result of
coercing a missing or non-numeric field with `Number(...)`) or an
integer-valued number. -/
inductive JSNumber where
  | nan : JSNumber
  | int : Int → JSNumber
deriving DecidableEq, Repr

/-- Strict equality (`===`) of a JS number against an integer literal:
`NaN === n` is `false` for every `n`. -/
def JSNumber.strictEqInt : JSNumber → Int → Bool
  | .nan, _ => false
  | .int m, n => m == n

/-- A JS value as it may appear in `customData?.httpStatus` on a
`FirebaseError`: an integer-valued number, `undefined` (field or
`customData` missing), or some non-numeric value (a string, object, …)
whose `Number(...)` coercion is `NaN`. -/
inductive JSValue where
  | undefined : JSValue
  | number : Int → JSValue
  | nonNumeric : JSValue
deriving DecidableEq, Repr

/-- The `Number(...)` coercion as applied in `getToken`:
`Number(undefined)` and `Number(<non-numeric>)` are `NaN`; a numeric
value is unchanged. -/
def toNumber : JSValue → JSNumber
  | .undefined => .nan
  | .number n => .int n
  | .nonNumeric => .nan

/-- Modelled from the spec: `ONE_DAY` is defined in
`packages/app-check/src/constants.ts`, which is not among the sources;
the spec's hard-block scenario (state becomes
`THROTTLED(t0+86400000, 403, 1)`) fixes it at 86 400 000 ms, i.e. 24
hours. -/
def ONE_DAY : Int := 86400000

/-- Modelled from the spec: `calculateBackoffMillis` is defined in
`packages/util`, which is not among the sources.  Per the spec's Backoff
Calculator contract it is `base × factor^attemptCount`, "pure,
deterministic up to randomized jitter"; the bounded jitter is abstracted
away, leaving the deterministic exponential. -/
def calculateBackoffMillis (backoffCount : Nat) (intervalMillis : Int)
    (backoffFactor : Int) : Int :=
  intervalMillis * backoffFactor ^ backoffCount

/-- `ThrottleData` from `types.ts`: the per-provider throttle record. -/
structure ThrottleData where
  backoffCount : Nat
  allowRequestsAfter : Int
  httpStatus : JSNumber
deriving DecidableEq, Repr

/-- The owning app context; only its identity matters to this module. -/
structure FirebaseApp where
  name : String
deriving DecidableEq, Repr

/-- The error code string `AppCheckError.FETCH_STATUS_ERROR` compared
against `e.code` in `getToken`. -/
def FETCH_STATUS_ERROR : String := "appCheck/fetch-status-error"

/-- A `FirebaseError` thrown by the exchange collaborator, as observed by
`getToken`: its `code` and the value found at `customData?.httpStatus`. -/
structure FirebaseError where
  code : String
  customDataHttpStatus : JSValue
deriving DecidableEq, Repr

/-- The public token shape returned by a custom provider's callback:
the opaque signed string and its expiry. -/
structure AppCheckToken where
  token : String
  expireTimeMillis : Int
deriving DecidableEq, Repr

/-- `AppCheckTokenInternal`: the public token plus the normalized
issuance timestamp. -/
structure AppCheckTokenInternal extends AppCheckToken where
  issuedAtTimeMillis : Int
deriving DecidableEq, Repr

/-- The failures a provider's `getToken` can raise (the module's error
taxonomy).  A throttled failure carries the record's
`allowRequestsAfter` (rendered as a locale string in the source) and its
`httpStatus`; an exchange failure that does not carry an HTTP status is
propagated verbatim as the original error object. -/
inductive AppCheckFailure where
  | throttled (allowRequestsAfter : Int) (httpStatus : JSNumber)
  | useBeforeActivation
  | recaptchaError
  | exchangeFailure (e : FirebaseError)
deriving DecidableEq, Repr

/-- Outcome of the external reCAPTCHA attestation producer for one call:
an opaque artifact string, or an internal failure (whose detail the
source discards). -/
inductive AttestationResult where
  | ok (artifact : String)
  | err
deriving DecidableEq, Repr

/-- Outcome of the external exchange collaborator for one call. -/
inductive ExchangeResult where
  | ok (tok : AppCheckTokenInternal)
  | err (e : FirebaseError)
deriving DecidableEq, Repr

/-- The mutable state of a `ReCaptchaV3Provider` instance: the immutable
site key, the two fields set by initialization (`_app` and
`_platformLoggerProvider`), and the throttle record. -/
structure ReCaptchaV3Provider where
  siteKey : String
  app : Option FirebaseApp
  platformLoggerProvider : Option Unit
  throttleData : Option ThrottleData
deriving DecidableEq, Repr

/-- The constructor `new ReCaptchaV3Provider(siteKey)`. -/
def ReCaptchaV3Provider.mkNew (siteKey : String) : ReCaptchaV3Provider :=
  ⟨siteKey, none, none, none⟩

/-- `initialize(app)`: sets `_app` and `_platformLoggerProvider` (the
platform-logger lookup is external; only its presence matters). -/
def ReCaptchaV3Provider.initApp (p : ReCaptchaV3Provider)
    (app : FirebaseApp) : ReCaptchaV3Provider :=
  { p with app := some app, platformLoggerProvider := some () }

/-- `_setBackoff(httpStatus)`: computes the new throttle record from the
previous one.  Status 404 or 403 is a hard block (one day, reset count);
any other status gets exponential backoff with base 1000 ms, factor 2. -/
def ReCaptchaV3Provider.setBackoff (st : Option ThrottleData) (now : Int)
    (httpStatus : JSNumber) : ThrottleData :=
  if httpStatus.strictEqInt 404 || httpStatus.strictEqInt 403 then
    { backoffCount := 1
      allowRequestsAfter := now + ONE_DAY
      httpStatus := httpStatus }
  else
    let backoffCount := match st with
      | some t => t.backoffCount
      | none => 0
    let backoffMillis := calculateBackoffMillis backoffCount 1000 2
    { backoffCount := backoffCount + 1
      allowRequestsAfter := now + backoffMillis
      httpStatus := httpStatus }

/-- One `getToken` call, observed: the provider state after the call,
the returned token or raised failure, and how many times each external
collaborator was invoked. -/
structure GetTokenTrace where
  state : ReCaptchaV3Provider
  result : Except AppCheckFailure AppCheckTokenInternal
  attestationCalls : Nat
  exchangeCalls : Nat
deriving Repr

/-- The body of `ReCaptchaV3Provider.getToken` after the throttle entry
check: activation check, attestation production, exchange, and failure
classification. -/
def ReCaptchaV3Provider.getTokenBody (p : ReCaptchaV3Provider)
    (att : AttestationResult) (ex : ExchangeResult) (now : Int) :
    GetTokenTrace :=
  if p.app.isNone || p.platformLoggerProvider.isNone then
    ⟨p, .error .useBeforeActivation, 0, 0⟩
  else
    match att with
    | .err => ⟨p, .error .recaptchaError, 1, 0⟩
    | .ok _ =>
      match ex with
      | .ok tok => ⟨p, .ok tok, 1, 1⟩
      | .err e =>
        if e.code = FETCH_STATUS_ERROR then
          let td := setBackoff p.throttleData now
            (toNumber e.customDataHttpStatus)
          ⟨{ p with throttleData := some td },
            .error (.throttled td.allowRequestsAfter td.httpStatus), 1, 1⟩
        else
          ⟨p, .error (.exchangeFailure e), 1, 1⟩

/-- `ReCaptchaV3Provider.getToken`: the throttle entry check
(`Date.now() - allowRequestsAfter > 0` clears the record; otherwise the
call throws the throttled error), then the body. -/
def ReCaptchaV3Provider.getToken (p : ReCaptchaV3Provider)
    (att : AttestationResult) (ex : ExchangeResult) (now : Int) :
    GetTokenTrace :=
  match p.throttleData with
  | some td =>
    if now - td.allowRequestsAfter > 0 then
      ReCaptchaV3Provider.getTokenBody { p with throttleData := none }
        att ex now
    else
      ⟨p, .error (.throttled td.allowRequestsAfter td.httpStatus), 0, 0⟩
  | none => ReCaptchaV3Provider.getTokenBody p att ex now

/-- The options bag passed to `new CustomProvider(...)`; the
user-supplied callback is represented by its `toString()` source text,
the only aspect of its identity the source ever inspects. -/
structure CustomProviderOptions where
  getTokenSource : String
deriving DecidableEq, Repr

/-- The state of a `CustomProvider` instance. -/
structure CustomProvider where
  customProviderOptions : CustomProviderOptions
  app : Option FirebaseApp
deriving DecidableEq, Repr

/-- The constructor `new CustomProvider(options)`. -/
def CustomProvider.mkNew (options : CustomProviderOptions) : CustomProvider :=
  ⟨options, none⟩

/-- `CustomProvider.initialize(app)`. -/
def CustomProvider.initApp (p : CustomProvider) (app : FirebaseApp) :
    CustomProvider :=
  { p with app := some app }

/-- `CustomProvider.getToken`: activation check, invoke the callback
(its successful result is the `customToken` argument), extract `iat`
from the token string via the external `issuedAtTime` helper (the
`iatOf` argument), validate it, and return the token with
`issuedAtTimeMillis` added. -/
def CustomProvider.getToken (p : CustomProvider)
    (customToken : AppCheckToken) (iatOf : String → Option Int)
    (now : Int) : Except AppCheckFailure AppCheckTokenInternal :=
  if p.app.isNone then
    .error .useBeforeActivation
  else
    let issuedAtTimeSeconds := iatOf customToken.token
    let issuedAtTimeMillis : Int :=
      match issuedAtTimeSeconds with
      | some t => if t < now ∧ t > 0 then t * 1000 else now
      | none => now
    .ok ⟨customToken, issuedAtTimeMillis⟩

/-- A value an `isEqual` method may receive: a provider of either
variant, or any non-provider value (both `instanceof` checks fail). -/
inductive ProviderLike where
  | recaptcha (p : ReCaptchaV3Provider)
  | custom (p : CustomProvider)
  | notAProvider
deriving DecidableEq, Repr

/-- `ReCaptchaV3Provider.isEqual`: `instanceof ReCaptchaV3Provider`, then
site-key string comparison. -/
def ReCaptchaV3Provider.isEqual (p : ReCaptchaV3Provider)
    (other : ProviderLike) : Bool :=
  match other with
  | .recaptcha q => p.siteKey == q.siteKey
  | _ => false

/-- `CustomProvider.isEqual`: `instanceof CustomProvider`, then
comparison of the callbacks' `toString()` source texts. -/
def CustomProvider.isEqual (p : CustomProvider)
    (other : ProviderLike) : Bool :=
  match other with
  | .custom q =>
    p.customProviderOptions.getTokenSource ==
      q.customProviderOptions.getTokenSource
  | _ => false

/-- The previous backoff count read by the transient branch of
`_setBackoff`: the stored record's count, or 0 with no record. -/
def prevBackoffCount : Option ThrottleData → Nat
  | some t => t.backoffCount
  | none => 0

/-- A run of consecutive failed exchanges on one provider: each element
gives the time of the failure and its (coerced) HTTP status; the output
lists the successive throttle records. -/
def runFailureSeq (st : Option ThrottleData) :
    List (Int × JSNumber) → List ThrottleData
  | [] => []
  | (n, s) :: rest =>
    let td := ReCaptchaV3Provider.setBackoff st n s
    td :: runFailureSeq (some td) rest

/-- One escalation step between successive throttle records: the count
grows by exactly one and the unblock time strictly increases. -/
def stepEscalates (a b : ThrottleData) : Prop :=
  b.backoffCount = a.backoffCount + 1 ∧
    a.allowRequestsAfter < b.allowRequestsAfter

/-- The provider states reachable through the public lifecycle:
construction, initialization, and `getToken` calls with arbitrary
collaborator outcomes. -/
inductive Reachable : ReCaptchaV3Provider → Prop
  | constructed (siteKey : String) :
      Reachable (ReCaptchaV3Provider.mkNew siteKey)
  | stepInit (p : ReCaptchaV3Provider) (app : FirebaseApp) :
      Reachable p → Reachable (p.initApp app)
  | stepGetToken (p : ReCaptchaV3Provider) (att : AttestationResult)
      (ex : ExchangeResult) (now : Int) :
      Reachable p → Reachable (p.getToken att ex now).state

/-- Helper: a non-hard-block status takes the exponential-backoff branch
of `_setBackoff`. -/
theorem setBackoff_transient (st : Option ThrottleData) (now : Int)
    (s : JSNumber) (h403 : s ≠ JSNumber.int 403)
    (h404 : s ≠ JSNumber.int 404) :
    ReCaptchaV3Provider.setBackoff st now s =
      ⟨prevBackoffCount st + 1,
        now + calculateBackoffMillis (prevBackoffCount st) 1000 2, s⟩ := by
  have hcond : (s.strictEqInt 404 || s.strictEqInt 403) = false := by
    cases s with
    | nan => rfl
    | int m =>
      have hm4 : m ≠ 404 := fun h => h404 (by rw [h])
      have hm3 : m ≠ 403 := fun h => h403 (by rw [h])
      simp [JSNumber.strictEqInt, hm4, hm3]
  simp only [ReCaptchaV3Provider.setBackoff, hcond, Bool.false_eq_true,
    if_false]
  cases st <;> rfl

/-- C3: a hard-block exchange failure (HTTP 403 or 404), from any prior
throttle state, yields the record
`⟨backoffCount 1, now + ONE_DAY, the failing status⟩`. -/
theorem C3_hard_block (st : Option ThrottleData) (now : Int) (s : JSNumber)
    (h : s = JSNumber.int 403 ∨ s = JSNumber.int 404) :
    ReCaptchaV3Provider.setBackoff st now s = ⟨1, now + ONE_DAY, s⟩ := by
  rcases h with h | h <;> subst h <;> rfl

/-- C3 witness: a 403 failure at time 1000 over an accumulated record
with `backoffCount = 7` resets to one day and count 1. -/
theorem C3_hard_block_witness :
    ((JSNumber.int 403 = JSNumber.int 403 ∨
        JSNumber.int 403 = JSNumber.int 404) ∧
      ReCaptchaV3Provider.setBackoff (some ⟨7, 123, JSNumber.int 500⟩) 1000
          (JSNumber.int 403) =
        ⟨1, 1000 + ONE_DAY, JSNumber.int 403⟩) :=
  ⟨Or.inl rfl, C3_hard_block _ _ _ (Or.inl rfl)⟩

/-- C4: an exchange failure with any status other than 403 and 404 takes
the transient branch: the count becomes the previous count plus one (0
plus one with no record), and the unblock time is `now` plus the
exponential backoff of the previous count with base 1000 ms, factor 2;
the failing status is stored. -/
theorem C4_transient_backoff (st : Option ThrottleData) (now : Int)
    (s : JSNumber) (h403 : s ≠ JSNumber.int 403)
    (h404 : s ≠ JSNumber.int 404) :
    ReCaptchaV3Provider.setBackoff st now s =
      ⟨prevBackoffCount st + 1,
        now + calculateBackoffMillis (prevBackoffCount st) 1000 2, s⟩ :=
  setBackoff_transient st now s h403 h404

/-- C4 witness: a 500 failure at time 50 over a record with count 3
yields count 4 and backoff `1000 * 2^3`. -/
theorem C4_transient_backoff_witness :
    (JSNumber.int 500 ≠ JSNumber.int 403 ∧
      JSNumber.int 500 ≠ JSNumber.int 404 ∧
      ReCaptchaV3Provider.setBackoff (some ⟨3, 40, JSNumber.int 503⟩) 50
          (JSNumber.int 500) =
        ⟨3 + 1, 50 + calculateBackoffMillis 3 1000 2, JSNumber.int 500⟩) :=
  ⟨by decide, by decide,
    C4_transient_backoff (some ⟨3, 40, JSNumber.int 503⟩) 50
      (JSNumber.int 500) (by decide) (by decide)⟩

/-- C7: provider equality is reflexive and symmetric; two reCAPTCHA
providers are equal exactly when their site keys are equal; two custom
providers are equal exactly when the same callback definition (its
source text) was supplied; comparisons across variants or against a
non-provider are always false. -/
theorem C7_isEqual :
    (∀ p : ReCaptchaV3Provider,
        p.isEqual (ProviderLike.recaptcha p) = true) ∧
    (∀ p : CustomProvider, p.isEqual (ProviderLike.custom p) = true) ∧
    (∀ p q : ReCaptchaV3Provider,
        p.isEqual (ProviderLike.recaptcha q) =
          q.isEqual (ProviderLike.recaptcha p)) ∧
    (∀ p q : CustomProvider,
        p.isEqual (ProviderLike.custom q) =
          q.isEqual (ProviderLike.custom p)) ∧
    (∀ p q : ReCaptchaV3Provider,
        (p.isEqual (ProviderLike.recaptcha q) = true ↔
          p.siteKey = q.siteKey)) ∧
    (∀ p q : CustomProvider,
        (p.isEqual (ProviderLike.custom q) = true ↔
          p.customProviderOptions.getTokenSource =
            q.customProviderOptions.getTokenSource)) ∧
    (∀ (p : ReCaptchaV3Provider) (q : CustomProvider),
        p.isEqual (ProviderLike.custom q) = false ∧
          q.isEqual (ProviderLike.recaptcha p) = false) ∧
    (∀ p : ReCaptchaV3Provider,
        p.isEqual ProviderLike.notAProvider = false) ∧
    (∀ p : CustomProvider,
        p.isEqual ProviderLike.notAProvider = false) := by
  refine ⟨fun p => ?_, fun p => ?_, fun p q => ?_, fun p q => ?_,
    fun p q => ?_, fun p q => ?_, fun p q => ⟨rfl, rfl⟩,
    fun p => rfl, fun p => rfl⟩
  · simp [ReCaptchaV3Provider.isEqual]
  · simp [CustomProvider.isEqual]
  · simp only [ReCaptchaV3Provider.isEqual]
    exact Bool.beq_comm
  · simp only [CustomProvider.isEqual]
    exact Bool.beq_comm
  · simp [ReCaptchaV3Provider.isEqual]
  · simp [CustomProvider.isEqual]

/-- C7 witness: two reCAPTCHA providers built on the same site key are
equal. -/
theorem C7_isEqual_witness :
    (ReCaptchaV3Provider.mkNew "site-key").isEqual
      (ProviderLike.recaptcha (ReCaptchaV3Provider.mkNew "site-key")) =
      true :=
  C7_isEqual.1 (ReCaptchaV3Provider.mkNew "site-key")

/-- C2: for a token returned by the custom provider's callback, the
normalized `issuedAtTimeMillis` is `t * 1000` when the extracted
embedded timestamp `t` is present with `0 < t < now`, and is the current
time in every other case (`t` absent, `t = 0`, `t` negative, or
`t ≥ now`). -/
theorem C2_custom_normalization (p : CustomProvider)
    (customToken : AppCheckToken) (iatOf : String → Option Int)
    (now : Int) (hApp : p.app.isNone = false) :
    (∀ t, iatOf customToken.token = some t → 0 < t → t < now →
      p.getToken customToken iatOf now =
        Except.ok ⟨customToken, t * 1000⟩) ∧
    (iatOf customToken.token = none →
      p.getToken customToken iatOf now =
        Except.ok ⟨customToken, now⟩) ∧
    (∀ t, iatOf customToken.token = some t → t ≤ 0 →
      p.getToken customToken iatOf now =
        Except.ok ⟨customToken, now⟩) ∧
    (∀ t, iatOf customToken.token = some t → now ≤ t →
      p.getToken customToken iatOf now =
        Except.ok ⟨customToken, now⟩) := by
  refine ⟨?_, ?_, ?_, ?_⟩
  · intro t hsome h0 hlt
    simp [CustomProvider.getToken, hApp, hsome, h0, hlt]
  · intro hnone
    simp [CustomProvider.getToken, hApp, hnone]
  · intro t hsome hle
    have hno : ¬(t < now ∧ t > 0) := by omega
    simp [CustomProvider.getToken, hApp, hsome, hno]
  · intro t hsome hge
    have hno : ¬(t < now ∧ t > 0) := by omega
    simp [CustomProvider.getToken, hApp, hsome, hno]

/-- C2 witness: with embedded timestamp 5 and current time 10, the
output is `5 * 1000`. -/
theorem C2_custom_normalization_witness :
    (CustomProvider.mk ⟨"cb-source"⟩ (some ⟨"app"⟩)).getToken
        ⟨"tok", 99⟩ (fun _ => some 5) 10 =
      Except.ok ⟨⟨"tok", 99⟩, 5 * 1000⟩ :=
  (C2_custom_normalization (CustomProvider.mk ⟨"cb-source"⟩ (some ⟨"app"⟩))
      ⟨"tok", 99⟩ (fun _ => some 5) 10 rfl).1 5 rfl (by decide) (by decide)

/-- C10: `CustomProvider.getToken` returns the callback's token with all
its fields (the opaque token string and the expiry) preserved unchanged;
only `issuedAtTimeMillis` is added. -/
theorem C10_custom_token_frame (p : CustomProvider)
    (customToken : AppCheckToken) (iatOf : String → Option Int)
    (now : Int) (hApp : p.app.isNone = false) :
    ∃ m : Int,
      p.getToken customToken iatOf now = Except.ok ⟨customToken, m⟩ := by
  have hc : ¬(p.app.isNone = true) := by simp [hApp]
  refine ⟨(match iatOf customToken.token with
    | some t => if t < now ∧ t > 0 then t * 1000 else now
    | none => now), ?_⟩
  unfold CustomProvider.getToken
  rw [if_neg hc]

/-- C10 witness: a concrete callback token passes through with its token
string and expiry intact. -/
theorem C10_custom_token_frame_witness :
    ∃ m : Int,
      (CustomProvider.mk ⟨"cb-source"⟩ (some ⟨"app"⟩)).getToken
          ⟨"opaque-token", 777⟩ (fun _ => none) 42 =
        Except.ok ⟨⟨"opaque-token", 777⟩, m⟩ :=
  C10_custom_token_frame (CustomProvider.mk ⟨"cb-source"⟩ (some ⟨"app"⟩))
    ⟨"opaque-token", 777⟩ (fun _ => none) 42 rfl

/-- Helper: on an initialized provider with a successful attestation and
a failed exchange, the body classifies the failure by its error code. -/
theorem getTokenBody_err (p : ReCaptchaV3Provider) (artifact : String)
    (e : FirebaseError) (now : Int) (hApp : p.app.isNone = false)
    (hPlp : p.platformLoggerProvider.isNone = false) :
    ReCaptchaV3Provider.getTokenBody p (AttestationResult.ok artifact)
        (ExchangeResult.err e) now =
      if e.code = FETCH_STATUS_ERROR then
        ⟨{ p with throttleData := some (ReCaptchaV3Provider.setBackoff
              p.throttleData now (toNumber e.customDataHttpStatus)) },
          Except.error (AppCheckFailure.throttled
            (ReCaptchaV3Provider.setBackoff p.throttleData now
              (toNumber e.customDataHttpStatus)).allowRequestsAfter
            (ReCaptchaV3Provider.setBackoff p.throttleData now
              (toNumber e.customDataHttpStatus)).httpStatus), 1, 1⟩
      else ⟨p, Except.error (AppCheckFailure.exchangeFailure e), 1, 1⟩ := by
  simp only [ReCaptchaV3Provider.getTokenBody, hApp, hPlp,
    Bool.or_self, Bool.false_eq_true, if_false]

/-- Helper: with no stored throttle record, `getToken` runs its body
directly. -/
theorem getToken_of_clear (p : ReCaptchaV3Provider)
    (att : AttestationResult) (ex : ExchangeResult) (now : Int)
    (hThr : p.throttleData = none) :
    p.getToken att ex now =
      ReCaptchaV3Provider.getTokenBody p att ex now := by
  simp [ReCaptchaV3Provider.getToken, hThr]

/-- C1 counterexample: at `now` exactly equal to `allowRequestsAfter`
(so `now ≥ allowRequestsAfter` holds), the call does NOT clear the
record and does NOT attempt the exchange — it fails with the throttled
error and leaves the state unchanged, because the source clears only on
`Date.now() - allowRequestsAfter > 0`, a strict inequality. -/
theorem C1_throttle_entry_counterexample :
    (5000 : Int) ≥ 5000 ∧
    (ReCaptchaV3Provider.mk "site" (some ⟨"app"⟩) (some ())
          (some ⟨1, 5000, JSNumber.int 500⟩)).getToken
        (AttestationResult.ok "artifact")
        (ExchangeResult.ok ⟨⟨"tok", 1⟩, 2⟩) 5000 =
      ⟨ReCaptchaV3Provider.mk "site" (some ⟨"app"⟩) (some ())
          (some ⟨1, 5000, JSNumber.int 500⟩),
        Except.error (AppCheckFailure.throttled 5000 (JSNumber.int 500)),
        0, 0⟩ :=
  ⟨le_refl _, rfl⟩

/-- C1 (amended): while a throttle record is present, `getToken` clears
the record and proceeds — performing exactly one exchange attempt when
initialized and attestation succeeds — only when `now` is strictly
greater than `allowRequestsAfter`; whenever `now ≤ allowRequestsAfter`
(including equality) it fails immediately with the throttled error
carrying the stored `allowRequestsAfter` and `httpStatus`, leaves the
record unchanged (so repeated calls in the window yield the same error
with the same fields), and invokes neither attestation production nor
the exchange collaborator. -/
theorem C1_throttle_entry (p : ReCaptchaV3Provider) (td : ThrottleData)
    (att : AttestationResult) (ex : ExchangeResult) (now : Int)
    (h : p.throttleData = some td) :
    (now > td.allowRequestsAfter →
      p.getToken att ex now =
        ReCaptchaV3Provider.getTokenBody { p with throttleData := none }
          att ex now ∧
      (p.app.isNone = false → p.platformLoggerProvider.isNone = false →
        ∀ a, att = AttestationResult.ok a →
          (p.getToken att ex now).exchangeCalls = 1)) ∧
    (now ≤ td.allowRequestsAfter →
      p.getToken att ex now =
        ⟨p, Except.error (AppCheckFailure.throttled td.allowRequestsAfter
          td.httpStatus), 0, 0⟩) := by
  have hG : p.getToken att ex now =
      if now - td.allowRequestsAfter > 0 then
        ReCaptchaV3Provider.getTokenBody { p with throttleData := none }
          att ex now
      else
        ⟨p, Except.error (AppCheckFailure.throttled td.allowRequestsAfter
          td.httpStatus), 0, 0⟩ := by
    simp [ReCaptchaV3Provider.getToken, h]
  constructor
  · intro hgt
    have hif : p.getToken att ex now =
        ReCaptchaV3Provider.getTokenBody { p with throttleData := none }
          att ex now := by
      rw [hG, if_pos (by omega)]
    refine ⟨hif, ?_⟩
    intro hApp hPlp a hatt
    subst hatt
    rw [hif]
    simp only [ReCaptchaV3Provider.getTokenBody]
    have hApp2 : ({ p with throttleData := none } :
        ReCaptchaV3Provider).app.isNone = false := hApp
    have hPlp2 : ({ p with throttleData := none } :
        ReCaptchaV3Provider).platformLoggerProvider.isNone = false := hPlp
    simp only [hApp2, hPlp2, Bool.or_self, Bool.false_eq_true, if_false]
    cases ex with
    | ok t => rfl
    | err e =>
      by_cases hc : e.code = FETCH_STATUS_ERROR
      · simp only [hc, if_pos]
      · simp only [hc, if_neg, if_false]
  · intro hle
    rw [hG, if_neg (by omega)]

/-- C1 witness: with a stored record allowing requests after time 100, a
call at time 50 returns the stored throttled error, touches no state and
calls no collaborator. -/
theorem C1_throttle_entry_witness :
    (ReCaptchaV3Provider.mk "s" (some ⟨"a"⟩) (some ())
          (some ⟨1, 100, JSNumber.int 500⟩)).getToken
        (AttestationResult.ok "x") (ExchangeResult.ok ⟨⟨"t", 1⟩, 2⟩) 50 =
      ⟨ReCaptchaV3Provider.mk "s" (some ⟨"a"⟩) (some ())
          (some ⟨1, 100, JSNumber.int 500⟩),
        Except.error (AppCheckFailure.throttled 100 (JSNumber.int 500)),
        0, 0⟩ :=
  (C1_throttle_entry
      (ReCaptchaV3Provider.mk "s" (some ⟨"a"⟩) (some ())
        (some ⟨1, 100, JSNumber.int 500⟩))
      ⟨1, 100, JSNumber.int 500⟩ (AttestationResult.ok "x")
      (ExchangeResult.ok ⟨⟨"t", 1⟩, 2⟩) 50 rfl).2 (by decide)

/-- C5: when the exchange collaborator fails inside `getToken` (starting
from a clear, initialized provider): a failure whose code is
`FETCH_STATUS_ERROR` runs the backoff transition on the coerced status
and the call fails with the throttled error carrying the new record's
`allowRequestsAfter` and `httpStatus`; any other failure is rethrown as
the original error object with no state mutation; in both cases exactly
one exchange attempt was made (no retry). -/
theorem C5_exchange_failure_classification (p : ReCaptchaV3Provider)
    (artifact : String) (e : FirebaseError) (now : Int)
    (hApp : p.app.isNone = false)
    (hPlp : p.platformLoggerProvider.isNone = false)
    (hThr : p.throttleData = none) :
    (e.code = FETCH_STATUS_ERROR →
      (p.getToken (AttestationResult.ok artifact)
          (ExchangeResult.err e) now).state.throttleData =
        some (ReCaptchaV3Provider.setBackoff none now
          (toNumber e.customDataHttpStatus)) ∧
      (p.getToken (AttestationResult.ok artifact)
          (ExchangeResult.err e) now).result =
        Except.error (AppCheckFailure.throttled
          (ReCaptchaV3Provider.setBackoff none now
            (toNumber e.customDataHttpStatus)).allowRequestsAfter
          (ReCaptchaV3Provider.setBackoff none now
            (toNumber e.customDataHttpStatus)).httpStatus) ∧
      (p.getToken (AttestationResult.ok artifact)
          (ExchangeResult.err e) now).exchangeCalls = 1) ∧
    (e.code ≠ FETCH_STATUS_ERROR →
      (p.getToken (AttestationResult.ok artifact)
          (ExchangeResult.err e) now).state = p ∧
      (p.getToken (AttestationResult.ok artifact)
          (ExchangeResult.err e) now).result =
        Except.error (AppCheckFailure.exchangeFailure e) ∧
      (p.getToken (AttestationResult.ok artifact)
          (ExchangeResult.err e) now).exchangeCalls = 1) := by
  have hG : p.getToken (AttestationResult.ok artifact)
      (ExchangeResult.err e) now =
      ReCaptchaV3Provider.getTokenBody p (AttestationResult.ok artifact)
        (ExchangeResult.err e) now :=
    getToken_of_clear p _ _ now hThr
  have hB := getTokenBody_err p artifact e now hApp hPlp
  constructor
  · intro hc
    rw [hG, hB, if_pos hc, hThr]
    exact ⟨rfl, rfl, rfl⟩
  · intro hc
    rw [hG, hB, if_neg hc]
    exact ⟨rfl, rfl, rfl⟩

/-- C5 witness: a status-carrying 500 failure at time 0 installs the
backoff record and raises the matching throttled error after one
exchange attempt. -/
theorem C5_exchange_failure_classification_witness :
    ((ReCaptchaV3Provider.mk "s" (some ⟨"a"⟩) (some ()) none).getToken
        (AttestationResult.ok "x")
        (ExchangeResult.err ⟨FETCH_STATUS_ERROR, JSValue.number 500⟩)
        0).state.throttleData =
      some (ReCaptchaV3Provider.setBackoff none 0
        (toNumber (JSValue.number 500))) ∧
    ((ReCaptchaV3Provider.mk "s" (some ⟨"a"⟩) (some ()) none).getToken
        (AttestationResult.ok "x")
        (ExchangeResult.err ⟨FETCH_STATUS_ERROR, JSValue.number 500⟩)
        0).result =
      Except.error (AppCheckFailure.throttled
        (ReCaptchaV3Provider.setBackoff none 0
          (toNumber (JSValue.number 500))).allowRequestsAfter
        (ReCaptchaV3Provider.setBackoff none 0
          (toNumber (JSValue.number 500))).httpStatus) ∧
    ((ReCaptchaV3Provider.mk "s" (some ⟨"a"⟩) (some ()) none).getToken
        (AttestationResult.ok "x")
        (ExchangeResult.err ⟨FETCH_STATUS_ERROR, JSValue.number 500⟩)
        0).exchangeCalls = 1 :=
  (C5_exchange_failure_classification
      (ReCaptchaV3Provider.mk "s" (some ⟨"a"⟩) (some ()) none) "x"
      ⟨FETCH_STATUS_ERROR, JSValue.number 500⟩ 0 rfl rfl rfl).1 rfl

/-- C9: a status-carrying exchange failure whose `httpStatus` field is
missing (`undefined`) or non-numeric coerces to `NaN`, which is neither
403 nor 404, so the transient exponential-backoff branch runs and both
the stored record and the thrown throttled error carry `NaN` as the
status (count 1 from a clear state, backoff `1000 * 2^0`). -/
theorem C9_nan_status (p : ReCaptchaV3Provider) (artifact : String)
    (e : FirebaseError) (now : Int) (hApp : p.app.isNone = false)
    (hPlp : p.platformLoggerProvider.isNone = false)
    (hThr : p.throttleData = none)
    (hCode : e.code = FETCH_STATUS_ERROR)
    (hVal : e.customDataHttpStatus = JSValue.undefined ∨
      e.customDataHttpStatus = JSValue.nonNumeric) :
    (p.getToken (AttestationResult.ok artifact)
        (ExchangeResult.err e) now).state.throttleData =
      some ⟨1, now + calculateBackoffMillis 0 1000 2, JSNumber.nan⟩ ∧
    (p.getToken (AttestationResult.ok artifact)
        (ExchangeResult.err e) now).result =
      Except.error (AppCheckFailure.throttled
        (now + calculateBackoffMillis 0 1000 2) JSNumber.nan) := by
  have hnan : toNumber e.customDataHttpStatus = JSNumber.nan := by
    rcases hVal with h | h <;> rw [h] <;> rfl
  have hsb : ReCaptchaV3Provider.setBackoff none now
      (toNumber e.customDataHttpStatus) =
      ⟨1, now + calculateBackoffMillis 0 1000 2, JSNumber.nan⟩ := by
    rw [hnan]
    exact setBackoff_transient none now JSNumber.nan (by decide) (by decide)
  have hG : p.getToken (AttestationResult.ok artifact)
      (ExchangeResult.err e) now =
      ReCaptchaV3Provider.getTokenBody p (AttestationResult.ok artifact)
        (ExchangeResult.err e) now :=
    getToken_of_clear p _ _ now hThr
  rw [hG, getTokenBody_err p artifact e now hApp hPlp, if_pos hCode, hThr,
    hsb]
  exact ⟨rfl, rfl⟩

/-- C9 witness: a `FETCH_STATUS_ERROR` failure with `undefined`
`httpStatus` at time 0 stores `⟨1, 1000, NaN⟩` and throws the throttled
error with status `NaN`. -/
theorem C9_nan_status_witness :
    ((ReCaptchaV3Provider.mk "s" (some ⟨"a"⟩) (some ()) none).getToken
        (AttestationResult.ok "x")
        (ExchangeResult.err ⟨FETCH_STATUS_ERROR, JSValue.undefined⟩)
        0).state.throttleData =
      some ⟨1, 0 + calculateBackoffMillis 0 1000 2, JSNumber.nan⟩ ∧
    ((ReCaptchaV3Provider.mk "s" (some ⟨"a"⟩) (some ()) none).getToken
        (AttestationResult.ok "x")
        (ExchangeResult.err ⟨FETCH_STATUS_ERROR, JSValue.undefined⟩)
        0).result =
      Except.error (AppCheckFailure.throttled
        (0 + calculateBackoffMillis 0 1000 2) JSNumber.nan) :=
  C9_nan_status (ReCaptchaV3Provider.mk "s" (some ⟨"a"⟩) (some ()) none)
    "x" ⟨FETCH_STATUS_ERROR, JSValue.undefined⟩ 0 rfl rfl rfl rfl
    (Or.inl rfl)

/-- Helper: the spec-modelled backoff strictly grows with the attempt
count (base 1000, factor 2). -/
theorem calculateBackoffMillis_strict_mono (c : Nat) :
    calculateBackoffMillis c 1000 2 <
      calculateBackoffMillis (c + 1) 1000 2 := by
  unfold calculateBackoffMillis
  have h2 : (0 : Int) < 2 ^ c := pow_pos (by norm_num) c
  rw [pow_succ]
  nlinarith

/-- Helper: chained escalation after a transient failure, carrying the
invariant that the latest record was produced at some time `n0` not
later than every remaining failure time. -/
theorem runFailureSeq_chain_aux (l : List (Int × JSNumber))
    (td : ThrottleData) (n0 : Int) (c0 : Nat)
    (hc : td.backoffCount = c0 + 1)
    (ha : td.allowRequestsAfter = n0 + calculateBackoffMillis c0 1000 2)
    (hTrans : ∀ q ∈ l, q.2 ≠ JSNumber.int 403 ∧ q.2 ≠ JSNumber.int 404)
    (hMono : List.Chain (fun a b => a ≤ b) n0 (l.map Prod.fst)) :
    List.Chain stepEscalates td (runFailureSeq (some td) l) := by
  induction l generalizing td n0 c0 with
  | nil => exact List.Chain.nil
  | cons q rest ih =>
    obtain ⟨n, s⟩ := q
    have hqt := hTrans ⟨n, s⟩ (List.mem_cons_self _ _)
    rw [List.map_cons, List.chain_cons] at hMono
    obtain ⟨hn0n, hMono'⟩ := hMono
    have hsb : ReCaptchaV3Provider.setBackoff (some td) n s =
        ⟨td.backoffCount + 1,
          n + calculateBackoffMillis td.backoffCount 1000 2, s⟩ :=
      setBackoff_transient (some td) n s hqt.1 hqt.2
    show List.Chain stepEscalates td
      (ReCaptchaV3Provider.setBackoff (some td) n s ::
        runFailureSeq (some (ReCaptchaV3Provider.setBackoff (some td) n s))
          rest)
    refine List.Chain.cons ?_ ?_
    · rw [hsb]
      refine ⟨rfl, ?_⟩
      show td.allowRequestsAfter <
        n + calculateBackoffMillis td.backoffCount 1000 2
      rw [ha, hc]
      have hstep := calculateBackoffMillis_strict_mono c0
      omega
    · refine ih _ n (c0 + 1) ?_ ?_
        (fun q hq => hTrans q (List.mem_cons_of_mem _ hq)) hMono'
      · rw [hsb, hc]
      · rw [hsb, hc]

/-- C6: over any chronologically ordered run of consecutive
transient-failure exchanges (every status differing from 403 and 404,
base 1000 ms, factor 2), the stored `backoffCount` grows by exactly one
per failure — starting from the prior count plus one — and the stored
`allowRequestsAfter` is strictly larger after each failure than after
the previous one. -/
theorem C6_monotonic_escalation (st : Option ThrottleData)
    (l : List (Int × JSNumber))
    (hTrans : ∀ q ∈ l, q.2 ≠ JSNumber.int 403 ∧ q.2 ≠ JSNumber.int 404)
    (hMono : List.Chain' (fun a b => a.1 ≤ b.1) l) :
    List.Chain' stepEscalates (runFailureSeq st l) ∧
    (∀ td0, (runFailureSeq st l).head? = some td0 →
      td0.backoffCount = prevBackoffCount st + 1) := by
  cases l with
  | nil => exact ⟨trivial, fun td0 h => by cases h⟩
  | cons q rest =>
    obtain ⟨n, s⟩ := q
    have hq := hTrans ⟨n, s⟩ (List.mem_cons_self _ _)
    have hsb : ReCaptchaV3Provider.setBackoff st n s =
        ⟨prevBackoffCount st + 1,
          n + calculateBackoffMillis (prevBackoffCount st) 1000 2, s⟩ :=
      setBackoff_transient st n s hq.1 hq.2
    constructor
    · show List.Chain stepEscalates (ReCaptchaV3Provider.setBackoff st n s)
        (runFailureSeq (some (ReCaptchaV3Provider.setBackoff st n s)) rest)
      have hMono2 : List.Chain (fun a b => a ≤ b) n (rest.map Prod.fst) :=
        List.chain_map_of_chain Prod.fst (fun a b h => h) hMono
      refine runFailureSeq_chain_aux rest _ n (prevBackoffCount st) ?_ ?_
        (fun q hq2 => hTrans q (List.mem_cons_of_mem _ hq2)) hMono2
      · rw [hsb]
      · rw [hsb]
    · intro td0 h
      have h2 : some (ReCaptchaV3Provider.setBackoff st n s) = some td0 := h
      have h3 : ReCaptchaV3Provider.setBackoff st n s = td0 :=
        Option.some_inj.mp h2
      rw [← h3, hsb]

/-- C6 witness: three transient failures (statuses 500, 500, 502) at
times 0, 10, 10 on a provider with no prior record escalate with counts
1, 2, 3 and strictly increasing unblock times. -/
theorem C6_monotonic_escalation_witness :
    List.Chain' stepEscalates (runFailureSeq none
      [((0 : Int), JSNumber.int 500), (10, JSNumber.int 500),
        (10, JSNumber.int 502)]) ∧
    (∀ td0, (runFailureSeq none
        [((0 : Int), JSNumber.int 500), (10, JSNumber.int 500),
          (10, JSNumber.int 502)]).head? = some td0 →
      td0.backoffCount = prevBackoffCount none + 1) :=
  C6_monotonic_escalation none
    [((0 : Int), JSNumber.int 500), (10, JSNumber.int 500),
      (10, JSNumber.int 502)]
    (by decide)
    (by
      refine List.chain'_cons.mpr ⟨by decide, ?_⟩
      refine List.chain'_cons.mpr ⟨by decide, ?_⟩
      exact List.chain'_singleton _)

/-- Helper: the body of `getToken` never changes `_app` or
`_platformLoggerProvider`. -/
theorem getTokenBody_preserves_init (p : ReCaptchaV3Provider)
    (att : AttestationResult) (ex : ExchangeResult) (now : Int) :
    (ReCaptchaV3Provider.getTokenBody p att ex now).state.app = p.app ∧
    (ReCaptchaV3Provider.getTokenBody p att ex now).state.platformLoggerProvider =
      p.platformLoggerProvider := by
  unfold ReCaptchaV3Provider.getTokenBody
  repeat' split
  all_goals exact ⟨rfl, rfl⟩

/-- Helper: `getToken` never changes `_app` or
`_platformLoggerProvider`. -/
theorem getToken_preserves_init (p : ReCaptchaV3Provider)
    (att : AttestationResult) (ex : ExchangeResult) (now : Int) :
    (p.getToken att ex now).state.app = p.app ∧
    (p.getToken att ex now).state.platformLoggerProvider =
      p.platformLoggerProvider := by
  unfold ReCaptchaV3Provider.getToken
  split
  · split
    · exact getTokenBody_preserves_init _ att ex now
    · exact ⟨rfl, rfl⟩
  · exact getTokenBody_preserves_init _ att ex now

/-- C8: in every reachable provider state, a present throttle record
implies the provider has been initialized (so the throttle short-circuit
can never fire on an uninitialized provider), and `getToken` on an
uninitialized provider always fails with the activation error and leaves
the state unchanged. -/
theorem C8_throttle_requires_init (p : ReCaptchaV3Provider)
    (hreach : Reachable p) :
    (p.throttleData ≠ none →
      p.app ≠ none ∧ p.platformLoggerProvider ≠ none) ∧
    ((p.app = none ∨ p.platformLoggerProvider = none) →
      ∀ att ex now,
        (p.getToken att ex now).result =
          Except.error AppCheckFailure.useBeforeActivation ∧
        (p.getToken att ex now).state = p) := by
  induction hreach with
  | constructed sk =>
    constructor
    · intro h
      exact absurd rfl h
    · intro _ att ex now
      exact ⟨rfl, rfl⟩
  | stepInit q app hq ih =>
    constructor
    · intro _
      exact ⟨by simp [ReCaptchaV3Provider.initApp],
        by simp [ReCaptchaV3Provider.initApp]⟩
    · intro h
      rcases h with h | h <;> simp [ReCaptchaV3Provider.initApp] at h
  | stepGetToken q att ex now hq ih =>
    have hpres := getToken_preserves_init q att ex now
    constructor
    · intro hthr
      by_cases hA : q.app = none ∨ q.platformLoggerProvider = none
      · have hstate : (q.getToken att ex now).state = q :=
          (ih.2 hA att ex now).2
        rw [hstate] at hthr ⊢
        exact ih.1 hthr
      · push_neg at hA
        exact ⟨by rw [hpres.1]; exact hA.1, by rw [hpres.2]; exact hA.2⟩
    · intro h att2 ex2 now2
      have hA : q.app = none ∨ q.platformLoggerProvider = none := by
        rcases h with h | h
        · exact Or.inl (by rw [← hpres.1]; exact h)
        · exact Or.inr (by rw [← hpres.2]; exact h)
      have hstate : (q.getToken att ex now).state = q :=
        (ih.2 hA att ex now).2
      rw [hstate]
      exact ih.2 hA att2 ex2 now2

/-- C8 witness: a freshly constructed (uninitialized) provider fails a
`getToken` call with the activation error. -/
theorem C8_throttle_requires_init_witness :
    ((ReCaptchaV3Provider.mkNew "k").getToken AttestationResult.err
        (ExchangeResult.ok ⟨⟨"t", 1⟩, 2⟩) 0).result =
      Except.error AppCheckFailure.useBeforeActivation :=
  ((C8_throttle_requires_init (ReCaptchaV3Provider.mkNew "k")
      (Reachable.constructed "k")).2 (Or.inl rfl) AttestationResult.err
      (ExchangeResult.ok ⟨⟨"t", 1⟩, 2⟩) 0).1

end AppCheck
